/-
Verification development for the gitmanager repository (src/main.py).

The program is a FastAPI service with one endpoint, POST /create-pr, that
runs a three-stage pipeline:
  1. run_git_commands        — collect commit history / diff text via shell git,
  2. generate_pr_content     — call a language-model HTTP API (gpt or gemini),
  3. create_github_pull_request — POST to the GitHub pulls API.

The embedding below mirrors src/main.py.  External effects (shell commands,
HTTP calls) are abstracted by a `World` record supplying the outputs the
external systems would return; the pure control flow, string construction,
field extraction and error propagation are translated directly from the
source.  Python exceptions that the source can raise while indexing into
parsed JSON are modelled explicitly (KeyError / IndexError / TypeError /
AttributeError), because the source catches only KeyError in one place.
-/
import Mathlib

/-- A parsed JSON value, as returned by `response.json()` in the source. -/
inductive JsonVal where
  | null : JsonVal
  | bool : Bool → JsonVal
  | num : Int → JsonVal
  | str : String → JsonVal
  | arr : List JsonVal → JsonVal
  | obj : List (String × JsonVal) → JsonVal

/-- The Python exception kinds the source's JSON indexing can raise. -/
inductive PyExc where
  | keyError : PyExc
  | indexError : PyExc
  | typeError : PyExc
  | attributeError : PyExc
deriving DecidableEq

/-- Python subscripting `v["k"]` on a parsed JSON value: a dict lookup raises
KeyError when the key is absent; subscripting a list, string, number, bool or
None with a string raises TypeError. -/
def jGetKey : JsonVal → String → Except PyExc JsonVal
  | .obj kvs, k =>
    match kvs.lookup k with
    | some v => .ok v
    | none => .error .keyError
  | _, _ => .error .typeError

/-- Python subscripting `v[i]` (integer index) on a parsed JSON value: a list
raises IndexError when out of range; a string yields the one-character string
or IndexError; a dict raises KeyError (JSON object keys are strings, so an
integer key is never present); numbers, bools and None raise TypeError. -/
def jGetIdx : JsonVal → Nat → Except PyExc JsonVal
  | .arr xs, i =>
    match xs[i]? with
    | some v => .ok v
    | none => .error .indexError
  | .str s, i =>
    match s.data[i]? with
    | some c => .ok (.str (String.mk [c]))
    | none => .error .indexError
  | .obj _, _ => .error .keyError
  | _, _ => .error .typeError

/-- The GPT extraction path of src/main.py line 132:
`response.json()["choices"][0]["message"]["content"]`. -/
def gptExtract (j : JsonVal) : Except PyExc JsonVal := do
  let a ← jGetKey j "choices"
  let b ← jGetIdx a 0
  let c ← jGetKey b "message"
  jGetKey c "content"

/-- The Gemini extraction path of src/main.py line 144:
`response.json()["candidates"][0]["content"]["parts"][0]["text"]`. -/
def geminiExtract (j : JsonVal) : Except PyExc JsonVal := do
  let a ← jGetKey j "candidates"
  let b ← jGetIdx a 0
  let c ← jGetKey b "content"
  let d ← jGetKey c "parts"
  let e ← jGetIdx d 0
  jGetKey e "text"

/-- An HTTP response as seen by the source: `status_code`, the parsed JSON
body (`response.json()`), and the raw body text (`response.text`). -/
structure HttpResp where
  status : Nat
  json : JsonVal
  text : String

/-- The fixed instructional preamble of src/main.py line 108. -/
def system_prompt : String :=
  "You are an expert software developer and technical writer. Your task is to refine a Pull Request (PR) template and then draft a PR description using that refined template, referencing provided file changes."

/-- The user prompt f-string of src/main.py lines 109-119: the template and
the collected git data are interpolated verbatim between fixed literals. -/
def user_prompt (template git_data : String) : String :=
  "\nPlease write a Pull Request body.\n\n[PR Template]\n" ++ template ++
  "\n\n[Code Changes & Logs]\n" ++ git_data ++
  "\n\nFill out the template based on the changes. Keep the tone professional.\n"

/-- Outcome of `generate_pr_content`: the returned title/body dict, a raised
HTTPException (status, detail), or an exception that no handler catches. -/
inductive GenOutcome where
  | ok : String → JsonVal → GenOutcome
  | httpError : Nat → String → GenOutcome
  | crash : PyExc → GenOutcome

/-- The outbound network calls the pipeline can make, in the order attempted:
the `git fetch origin` subprocess, the language-model POST, the GitHub POST. -/
inductive NetCall where
  | gitFetch : NetCall
  | llmPost : NetCall
  | ghPost : NetCall
deriving DecidableEq

/-- True exactly when the outcome is a raised HTTPException (a controlled
error), as opposed to a returned value or an uncaught exception. -/
def GenOutcome.isHttpErr : GenOutcome → Bool
  | .httpError _ _ => true
  | _ => false

/-- Model of src/main.py lines 106-150, `generate_pr_content`.  The HTTP response the
provider would return is passed in as `resp`; the function returns the
outcome together with the list of language-model POSTs actually made (the
POST happens before the status check in both provider branches, and not at
all in the unsupported-provider branch).  In the gemini branch only KeyError
is caught (`except KeyError`); IndexError or TypeError from the extraction
chain propagates uncaught.  The gpt branch has no handler at all, so any
extraction failure propagates uncaught. -/
def generate_pr_content (provider api_key model template git_data : String)
    (resp : HttpResp) : GenOutcome × List NetCall :=
  if provider = "gpt" then
    ( if resp.status ≠ 200 then .httpError resp.status ("LLM Error: " ++ resp.text)
      else
        match gptExtract resp.json with
        | .ok content => .ok ("Update: " ++ model ++ " generated PR") content
        | .error e => .crash e
    , [.llmPost])
  else if provider = "gemini" then
    ( if resp.status ≠ 200 then .httpError resp.status ("LLM Error: " ++ resp.text)
      else
        match geminiExtract resp.json with
        | .ok content => .ok "Automated PR by Gemini" content
        | .error .keyError => .httpError 500 ("Gemini response parsing failed: " ++ resp.text)
        | .error e => .crash e
    , [.llmPost])
  else (.httpError 400 "Unsupported LLM provider", [])

/-- Python string slicing `s[:n]`: the first `n` characters (src/main.py
line 94, `changes_diff[:10000]`). -/
def pyTruncate (s : String) (n : Nat) : String := String.mk (s.data.take n)

/-- The Change Context f-string of src/main.py lines 86-95.  The diff body is
sliced to its first 10000 characters inside the template; note the literal
trailing space after the slice, exactly as in the source. -/
def full_context (commit_summary changes_stat changes_diff : String) : String :=
  "\n=== COMMIT SUMMARY ===\n" ++ commit_summary ++
  "\n\n=== CHANGES STAT ===\n" ++ changes_stat ++
  "\n\n=== GIT DIFF (Detail) ===\n" ++ pyTruncate changes_diff 10000 ++ " \n"

/-- The shell pipeline string of src/main.py line 71. -/
def rev_list_cmd (base : String) (n : Nat) : String :=
  "git rev-list --reverse " ++ base ++ "..HEAD | tail -n " ++ toString n ++ " | head -n 1"

/-- The diff command string of src/main.py line 78: the range runs from the
parent of the anchor commit to the branch tip. -/
def diff_cmd (target : String) : String := "git diff " ++ target ++ "^..HEAD"

/-- The log command string of src/main.py line 79. -/
def log_cmd (base : String) (n : Nat) : String :=
  "git log " ++ base ++ "..HEAD -n " ++ toString n ++ " --pretty=format:\"%h %s\" --name-status"

/-- The diff-stat command string of src/main.py line 80. -/
def stat_cmd (target : String) : String := "git diff --stat " ++ target ++ "^..HEAD"

/-- Semantics of the shell pipeline `<oldest-first commit list> | tail -n n |
head -n 1`: `tail -n n` keeps the last `n` lines of the oldest-first listing
and `head -n 1` takes the first of those, i.e. the oldest commit of the
last-`n` window; the empty listing yields the empty string. -/
def revListTailHead (commits : List String) (n : Nat) : String :=
  (commits.drop (commits.length - n)).headD ""

/-- Python `s.startswith(p)`: the characters of `p` lead the characters of
`s` (src/main.py line 64). -/
def pyStartsWith (s p : String) : Bool := p.data.isPrefixOf s.data

/-- Python slicing `s[n:]`: drop the first `n` characters (src/main.py
line 65, with `n = len("origin/") = 7`). -/
def pyDropChars (s : String) (n : Nat) : String := String.mk (s.data.drop n)

/-- Python `s.strip()`: remove leading and trailing whitespace characters
(src/main.py line 72). -/
def pyStrip (s : String) : String :=
  String.mk (((s.data.dropWhile Char.isWhitespace).reverse.dropWhile
    Char.isWhitespace).reverse)

/-- The shell interface: `exec cmd` is the decoded stdout of
`subprocess.check_output(cmd, shell=True)`, or the CalledProcessError text
`str(e)` when the command exits nonzero. -/
structure GitWorld where
  exec : String → Except String String

/-- Model of src/main.py lines 57-101, `run_git_commands`.  Fetch, strip an
`origin/` remote marker from the branch name, check the branch out, resolve
the anchor commit through the rev-list pipeline, then collect diff, log and
stat over `anchor^..HEAD`.  A CalledProcessError from any command is caught
and re-raised as HTTPException 500 with the "Git command failed: " detail;
an empty anchor raises the Korean empty-range message, likewise caught and
re-raised with status 500. -/
def run_git_commands (w : GitWorld) (n : Nat) (base branch : String) :
    Except (Nat × String) String :=
  match w.exec "git fetch origin" with
  | .error e => .error (500, "Git command failed: " ++ e)
  | .ok _ =>
    let local_branch := if pyStartsWith branch "origin/" then pyDropChars branch 7 else branch
    match w.exec ("git checkout " ++ local_branch) with
    | .error e => .error (500, "Git command failed: " ++ e)
    | .ok _ =>
      match w.exec (rev_list_cmd base n) with
      | .error e => .error (500, "Git command failed: " ++ e)
      | .ok revOut =>
        let target_commit := pyStrip revOut
        if target_commit = "" then
          .error (500, "변경사항을 찾을 수 없거나 커밋 범위가 유효하지 않습니다.")
        else
          match w.exec (diff_cmd target_commit) with
          | .error e => .error (500, "Git command failed: " ++ e)
          | .ok changes_diff =>
            match w.exec (log_cmd base n) with
            | .error e => .error (500, "Git command failed: " ++ e)
            | .ok commit_summary =>
              match w.exec (stat_cmd target_commit) with
              | .error e => .error (500, "Git command failed: " ++ e)
              | .ok changes_stat =>
                .ok (full_context commit_summary changes_stat changes_diff)

/-- The request model of src/main.py lines 33-52 after validation: every
field resolved to a concrete value. -/
structure PRRequest where
  owner : String
  repository : String
  token : String
  branch : String
  base_branch : String
  n_commits : Nat
  pr_template : String
  llm_provider : String
  llm_api_key : String
  llm_model : String

/-- Model of src/main.py lines 155-165, `create_github_pull_request`.  The GitHub
response is passed in as `resp`; on 201 the parsed body is returned, on any
other status an HTTPException is raised whose status is the upstream status
and whose detail embeds the upstream body text. -/
def create_github_pull_request (req : PRRequest) (title : String) (body : JsonVal)
    (resp : HttpResp) : Except (Nat × String) JsonVal :=
  let _payload := [("title", title), ("head", req.branch), ("base", req.base_branch)]
  if resp.status = 201 then .ok resp.json
  else .error (resp.status, "GitHub Error: " ++ resp.text)

/-- The external systems a single request interacts with: the local git
checkout (behind a shell), the language-model endpoint response, and the
GitHub pulls-API response. -/
structure World where
  git : GitWorld
  llm : HttpResp
  gh : HttpResp

/-- Pipeline stages of the /create-pr endpoint. -/
inductive Stage where
  | collect : Stage
  | generate : Stage
  | publish : Stage
deriving DecidableEq

/-- Terminal outcome of one inbound request: the success JSON of src/main.py
lines 191-195, an HTTPException surfaced from one of the three stages, an
uncaught Python exception, or a FastAPI request-validation rejection (HTTP
422 issued before the endpoint function runs). -/
inductive EndpointResult where
  | success : Option JsonVal → Option JsonVal → EndpointResult
  | failure : Stage → Nat → String → EndpointResult
  | crashed : Stage → PyExc → EndpointResult
  | validationError : EndpointResult

/-- Model of src/main.py lines 170-195, `create_pr_endpoint`, on an already-validated
request: the three stages run in sequence, each aborting the request when it
raises.  On a 201 publish the success JSON extracts `html_url` and `number`
with the total dict method `.get`, which returns None for a missing key (a
non-dict 201 body would raise AttributeError on `.get`).  The second
component collects the outbound network calls actually attempted, in
order. -/
def create_pr_endpoint (w : World) (req : PRRequest) : EndpointResult × List NetCall :=
  match run_git_commands w.git req.n_commits req.base_branch req.branch with
  | .error (s, d) => (.failure .collect s d, [.gitFetch])
  | .ok git_data =>
    match generate_pr_content req.llm_provider req.llm_api_key req.llm_model
        req.pr_template git_data w.llm with
    | (.httpError s d, c) => (.failure .generate s d, .gitFetch :: c)
    | (.crash e, c) => (.crashed .generate e, .gitFetch :: c)
    | (.ok title body, c) =>
      match create_github_pull_request req title body w.gh with
      | .error (s, d) => (.failure .publish s d, .gitFetch :: c ++ [.ghPost])
      | .ok pr_result =>
        match pr_result with
        | .obj kvs =>
          (.success (kvs.lookup "html_url") (kvs.lookup "number"),
           .gitFetch :: c ++ [.ghPost])
        | _ => (.crashed .publish .attributeError, .gitFetch :: c ++ [.ghPost])

/-- The inbound JSON body: each Request Configuration field either present
or absent. -/
structure RequestBody where
  owner : Option String
  repository : Option String
  token : Option String
  branch : Option String
  base_branch : Option String
  n_commits : Option Nat
  pr_template : Option String
  llm_provider : Option String
  llm_api_key : Option String
  llm_model : Option String

/-- The environment variables read at import time (src/main.py lines 35-52);
`none` models an unset variable.  GIT_N_COMMITS is abstracted as the parsed
count. -/
structure Env where
  GITHUB_OWNER : Option String
  GITHUB_REPOSITORY : Option String
  GITHUB_TOKEN : Option String
  GITHUB_BRANCH : Option String
  GITHUB_BASE_BRANCH : Option String
  GIT_N_COMMITS : Option Nat
  PR_TEMPLATE : Option String
  LLM_PROVIDER : Option String
  LLM_API_KEY : Option String
  LLM_MODEL : Option String

/-- src/main.py lines 17-28, `env_default`: an environment value that is set
and non-empty becomes the field default; otherwise the fallback default is
used when given; otherwise the field is required (`...`), modelled as
`none`. -/
def env_default (val dflt : Option String) : Option String :=
  match val with
  | some v => if v = "" then dflt else some v
  | none => dflt

/-- Pydantic resolution of one plain string field: the body value when
supplied, else the field default, else a validation failure (the field was
required). -/
def resolveField (bodyVal dflt : Option String) : Option String :=
  match bodyVal with
  | some v => some v
  | none => dflt

/-- Pydantic resolution of the `llm_provider` field, typed
`Literal["gemini", "gpt"]` (src/main.py line 50): a body-supplied value is
checked against the literal alternatives, but a default coming from the
environment is NOT validated — pydantic does not validate field defaults
(validate_default is false), so an unsupported environment value passes
through. -/
def resolveProvider (bodyVal dflt : Option String) : Option String :=
  match bodyVal with
  | some v => if v = "gemini" ∨ v = "gpt" then some v else none
  | none => dflt

/-- The literal fallback PR template of src/main.py line 47. -/
def defaultTemplate : String := "## 변경 사항\n- \n\n## 리뷰 포인트\n- "

/-- FastAPI/pydantic construction of a `PRRequest` from the inbound JSON
body and the import-time environment, mirroring the field declarations of
src/main.py lines 33-52.  Any unresolvable or invalid field makes the whole
request fail validation (HTTP 422, endpoint never invoked). -/
def validateRequest (b : RequestBody) (e : Env) : Option PRRequest :=
  match resolveField b.owner (env_default e.GITHUB_OWNER none),
        resolveField b.repository (env_default e.GITHUB_REPOSITORY none),
        resolveField b.token (env_default e.GITHUB_TOKEN none),
        resolveField b.branch (env_default e.GITHUB_BRANCH none),
        resolveField b.base_branch (env_default e.GITHUB_BASE_BRANCH (some "dev")),
        resolveField b.pr_template (env_default e.PR_TEMPLATE (some defaultTemplate)),
        resolveProvider b.llm_provider (env_default e.LLM_PROVIDER none),
        resolveField b.llm_api_key (env_default e.LLM_API_KEY none),
        resolveField b.llm_model (env_default e.LLM_MODEL (some "gemini-2.0-flash-lite")) with
  | some owner, some repository, some token, some branch, some base_branch,
    some pr_template, some llm_provider, some llm_api_key, some llm_model =>
      some ⟨owner, repository, token, branch, base_branch,
            b.n_commits.getD (e.GIT_N_COMMITS.getD 14),
            pr_template, llm_provider, llm_api_key, llm_model⟩
  | _, _, _, _, _, _, _, _, _ => none

/-- Auxiliary fact: the head (with default) of `l.drop n` is the element at
index `n`. -/
theorem headD_drop_eq {α : Type} (d : α) (n : Nat) (l : List α) (a : α)
    (h : l[n]? = some a) : (l.drop n).headD d = a := by
  induction n generalizing l with
  | zero =>
    cases l with
    | nil => simp at h
    | cons x xs => simp at h; simpa using h
  | succ k ih =>
    cases l with
    | nil => simp at h
    | cons x xs => simpa using ih xs (by simpa using h)

/-- One full inbound request: FastAPI validates the body against `PRRequest`
before the endpoint function runs; a validation failure is answered with
HTTP 422 and no endpoint code — in particular no outbound call — executes. -/
def handle_request (w : World) (b : RequestBody) (e : Env) :
    EndpointResult × List NetCall :=
  match validateRequest b e with
  | none => (.validationError, [])
  | some req => create_pr_endpoint w req

/-- C1: for commit-count 14, base "dev", and a branch 20 commits ahead of
the base, the collector picks as anchor the 7th-oldest commit of the range
(index 6 of the oldest-first listing, the head of its last-14 window), and
the diff and stat are taken over the range from the anchor's parent to the
branch tip — the command strings are literally `git diff <anchor>^..HEAD`
and `git diff --stat <anchor>^..HEAD`. -/
theorem C1_anchor_selection (w : GitWorld) (commits : List String)
    (a fo co diffO logO statO : String)
    (h20 : commits.length = 20)
    (ha : commits[6]? = some a)
    (htrim : pyStrip a = a) (hne : a ≠ "")
    (hfetch : w.exec "git fetch origin" = .ok fo)
    (hco : w.exec "git checkout feature/x" = .ok co)
    (hrev : w.exec (rev_list_cmd "dev" 14) = .ok (revListTailHead commits 14))
    (hdiff : w.exec (diff_cmd a) = .ok diffO)
    (hlog : w.exec (log_cmd "dev" 14) = .ok logO)
    (hstat : w.exec (stat_cmd a) = .ok statO) :
    revListTailHead commits 14 = a
    ∧ run_git_commands w 14 "dev" "feature/x" = .ok (full_context logO statO diffO)
    ∧ diff_cmd a = "git diff " ++ a ++ "^..HEAD"
    ∧ stat_cmd a = "git diff --stat " ++ a ++ "^..HEAD" := by
  have hsel : revListTailHead commits 14 = a := by
    show (commits.drop (commits.length - 14)).headD "" = a
    rw [h20]
    exact headD_drop_eq "" 6 commits a ha
  refine ⟨hsel, ?_, rfl, rfl⟩
  rw [hsel] at hrev
  have hbr : pyStartsWith "feature/x" "origin/" = false := by rfl
  have hco2 : w.exec ("git checkout " ++ "feature/x") = Except.ok co := hco
  simp only [run_git_commands, hfetch, hco2, hrev, hbr, Bool.false_eq_true,
    if_false, htrim, hne, ite_false, hdiff, hlog, hstat]

/-- A concrete branch 20 commits ahead of dev. -/
def commitsC1 : List String :=
  ["c01", "c02", "c03", "c04", "c05", "c06", "c07", "c08", "c09", "c10",
   "c11", "c12", "c13", "c14", "c15", "c16", "c17", "c18", "c19", "c20"]

/-- A shell whose rev-list pipeline answers with the 7th-oldest commit of
`commitsC1` and whose other commands succeed with empty output. -/
def gitWorldC1 : GitWorld :=
  ⟨fun cmd => if cmd = rev_list_cmd "dev" 14 then .ok "c07" else .ok ""⟩

/-- C1 witness: the hypotheses of `C1_anchor_selection` hold at the concrete
20-commit branch, and the anchor is the 7th-oldest commit c07. -/
theorem C1_anchor_selection_witness :
    revListTailHead commitsC1 14 = "c07"
    ∧ run_git_commands gitWorldC1 14 "dev" "feature/x" = .ok (full_context "" "" "")
    ∧ diff_cmd "c07" = "git diff c07^..HEAD"
    ∧ stat_cmd "c07" = "git diff --stat c07^..HEAD" :=
  C1_anchor_selection gitWorldC1 commitsC1 "c07" "" "" "" "" ""
    (by rfl) (by rfl) (by rfl) (by decide) (by rfl) (by rfl) (by rfl)
    (by rfl) (by rfl) (by rfl)

/-- Auxiliary fact: the Python slice `s[:n]` has at most `n` characters. -/
theorem pyTruncate_length_le (s : String) (n : Nat) :
    (pyTruncate s n).length ≤ n := by
  show (s.data.take n).length ≤ n
  exact s.data.length_take_le n

/-- C4: every Change Context the collector returns is the fixed template
with the GIT DIFF (detail) section truncated to at most 10000 characters,
whatever the size of the underlying diff output. -/
theorem C4_diff_truncation_bound (w : GitWorld) (n : Nat) (base branch s : String)
    (h : run_git_commands w n base branch = .ok s) :
    ∃ commit_summary changes_stat changes_diff,
      s = full_context commit_summary changes_stat changes_diff
      ∧ (pyTruncate changes_diff 10000).length ≤ 10000 := by
  simp only [run_git_commands] at h
  split at h <;> try exact Except.noConfusion h
  split at h <;> try exact Except.noConfusion h
  split at h <;> try exact Except.noConfusion h
  split at h <;> try exact Except.noConfusion h
  split at h <;> try exact Except.noConfusion h
  split at h <;> try exact Except.noConfusion h
  split at h <;> try exact Except.noConfusion h
  injection h with h
  exact ⟨_, _, _, h.symm, pyTruncate_length_le _ 10000⟩

/-- A shell delivering a 30000-character diff body. -/
def gitWorldC4 : GitWorld :=
  ⟨fun cmd =>
    if cmd = rev_list_cmd "dev" 5 then .ok "abc"
    else if cmd = diff_cmd "abc" then .ok (String.mk (List.replicate 30000 'x'))
    else .ok "out"⟩

/-- C4 witness: a concrete successful run through `gitWorldC4` satisfies the
truncation bound. -/
theorem C4_diff_truncation_bound_witness :
    ∃ commit_summary changes_stat changes_diff,
      full_context "out" "out" (String.mk (List.replicate 30000 'x'))
        = full_context commit_summary changes_stat changes_diff
      ∧ (pyTruncate changes_diff 10000).length ≤ 10000 :=
  C4_diff_truncation_bound gitWorldC4 5 "dev" "feature/y" _ (by rfl)

/-- C9: the prompt built by the Draft Generator is a pure function of the
template and the Change Context (determinism is intrinsic: `user_prompt` is
a function of exactly those two strings) and contains both verbatim as
substrings — each occurs unchanged between fixed literal segments. -/
theorem C9_prompt_contains_inputs (template git_data : String) :
    (∃ pre post, user_prompt template git_data = pre ++ template ++ post)
    ∧ (∃ pre post, user_prompt template git_data = pre ++ git_data ++ post) := by
  constructor
  · refine ⟨"\nPlease write a Pull Request body.\n\n[PR Template]\n",
      "\n\n[Code Changes & Logs]\n" ++ git_data ++
        "\n\nFill out the template based on the changes. Keep the tone professional.\n", ?_⟩
    simp [user_prompt, String.append_assoc]
  · refine ⟨"\nPlease write a Pull Request body.\n\n[PR Template]\n" ++ template ++
        "\n\n[Code Changes & Logs]\n",
      "\n\nFill out the template based on the changes. Keep the tone professional.\n", ?_⟩
    simp [user_prompt, String.append_assoc]

/-- A concrete validated request. -/
def reqC7 : PRRequest :=
  ⟨"own", "repo", "tok", "feature/x", "dev", 14, "tpl", "gemini", "key", "gemini-2.0-flash-lite"⟩

/-- C7: a non-201 response from the GitHub pulls API makes the Publisher
raise an HTTPException whose status equals the upstream status and whose
detail embeds the upstream body text; no pull-request value is returned. -/
theorem C7_publish_error_propagation (req : PRRequest) (title : String)
    (body : JsonVal) (resp : HttpResp) (hs : resp.status ≠ 201) :
    create_github_pull_request req title body resp
      = .error (resp.status, "GitHub Error: " ++ resp.text)
    ∧ (∃ pre post, "GitHub Error: " ++ resp.text = pre ++ resp.text ++ post) := by
  refine ⟨?_, ⟨"GitHub Error: ", "", ?_⟩⟩
  · simp [create_github_pull_request, hs]
  · simp

/-- C7 witness: a concrete 404 from GitHub surfaces as status 404 with the
body embedded. -/
theorem C7_publish_error_propagation_witness :
    create_github_pull_request reqC7 "t" .null ⟨404, .null, "not found"⟩
      = .error (404, "GitHub Error: not found")
    ∧ (∃ pre post, "GitHub Error: " ++ "not found" = pre ++ "not found" ++ post) :=
  C7_publish_error_propagation reqC7 "t" .null ⟨404, .null, "not found"⟩ (by decide)

/-- C8: a non-2xx response from the language-model endpoint, under either
supported provider, surfaces as an HTTPException whose status equals the
upstream status (the source tests `status_code != 200` in both branches). -/
theorem C8_llm_status_propagation (provider api_key model template git_data : String)
    (resp : HttpResp) (hp : provider = "gpt" ∨ provider = "gemini")
    (hs : resp.status < 200 ∨ 300 ≤ resp.status) :
    (generate_pr_content provider api_key model template git_data resp).1
      = .httpError resp.status ("LLM Error: " ++ resp.text) := by
  have hne : resp.status ≠ 200 := by omega
  rcases hp with rfl | rfl
  · simp [generate_pr_content, hne]
  · simp [generate_pr_content, hne]

/-- C8 witness: a concrete 503 from the gemini endpoint surfaces as an
error with status 503. -/
theorem C8_llm_status_propagation_witness :
    (generate_pr_content "gemini" "key" "gemini-2.0-flash-lite" "tpl" "ctx"
        ⟨503, .null, "overloaded"⟩).1
      = .httpError 503 ("LLM Error: " ++ "overloaded") :=
  C8_llm_status_propagation "gemini" "key" "gemini-2.0-flash-lite" "tpl" "ctx"
    ⟨503, .null, "overloaded"⟩ (Or.inr rfl) (by decide)

/-- C3 counterexample input: a 200 Gemini response whose body has a
`candidates` key holding an empty list. -/
def emptyCandidatesResp : HttpResp := ⟨200, .obj [("candidates", .arr [])], "resp-body"⟩

/-- C3 counterexample: a 200 Gemini response with an EMPTY `candidates`
list makes the extraction raise IndexError, which the source's
`except KeyError` handler does not catch — the generator terminates in an
uncontrolled crash, not a controlled HTTP generation error, refuting the
claim at this input. -/
theorem C3_empty_candidates_uncaught_counterexample :
    (generate_pr_content "gemini" "key" "gemini-2.0-flash-lite" "tpl" "ctx"
        emptyCandidatesResp).1 = .crash .indexError
    ∧ ((generate_pr_content "gemini" "key" "gemini-2.0-flash-lite" "tpl" "ctx"
        emptyCandidatesResp).1).isHttpErr = false := ⟨rfl, rfl⟩

/-- C3 amended: on the Gemini path, a 200 response whose extraction fails
with a missing key (for instance a body without a `candidates` key) is
reported as a controlled generation error — HTTP 500 with a diagnostic
detail embedding the response text.  (An empty `candidates` list raises an
uncaught IndexError instead, and the GPT path catches no extraction failure
at all; see the counterexample.) -/
theorem C3_gemini_missing_key_controlled (api_key model template git_data : String)
    (resp : HttpResp) (h200 : resp.status = 200)
    (hkey : geminiExtract resp.json = .error .keyError) :
    (generate_pr_content "gemini" api_key model template git_data resp).1
      = .httpError 500 ("Gemini response parsing failed: " ++ resp.text) := by
  simp [generate_pr_content, h200, hkey]

/-- C3 witness: a concrete 200 response without a `candidates` key is
reported as a controlled 500 generation error. -/
theorem C3_gemini_missing_key_controlled_witness :
    (generate_pr_content "gemini" "key" "gemini-2.0-flash-lite" "tpl" "ctx"
        ⟨200, .obj [("error", .str "oops")], "no-candidates"⟩).1
      = .httpError 500 ("Gemini response parsing failed: " ++ "no-candidates") :=
  C3_gemini_missing_key_controlled "key" "gemini-2.0-flash-lite" "tpl" "ctx"
    ⟨200, .obj [("error", .str "oops")], "no-candidates"⟩ rfl (by rfl)

/-- A well-formed Gemini 200 body whose generated text is `t`. -/
def geminiRespBody (t : String) : JsonVal :=
  .obj [("candidates", .arr [.obj [("content",
    .obj [("parts", .arr [.obj [("text", .str t)]])])]])]

/-- C5 counterexample: two successful Gemini generations whose model outputs
differ ("alpha" and "beta") both produce the identical fixed title
"Automated PR by Gemini" — the title is a constant of the source, not a
string produced by the language model; only the body is extracted from the
model response.  This refutes the claim that title AND body are both
produced by the model. -/
theorem C5_title_constant_counterexample :
    (generate_pr_content "gemini" "key" "gemini-2.0-flash-lite" "tpl" "ctx"
        ⟨200, geminiRespBody "alpha", "rawA"⟩).1
      = .ok "Automated PR by Gemini" (.str "alpha")
    ∧ (generate_pr_content "gemini" "key" "gemini-2.0-flash-lite" "tpl" "ctx"
        ⟨200, geminiRespBody "beta", "rawB"⟩).1
      = .ok "Automated PR by Gemini" (.str "beta") := ⟨rfl, rfl⟩

/-- C5 amended: on every successful generation the BODY is extracted from
the model response (through the provider's extraction path), while the
TITLE is a fixed string independent of the model output — for GPT it is
"Update: <model name> generated PR" (a function of the configured model
name only), for Gemini the constant "Automated PR by Gemini". -/
theorem C5_body_extracted_title_fixed (provider api_key model template git_data title : String)
    (body : JsonVal) (resp : HttpResp)
    (h : (generate_pr_content provider api_key model template git_data resp).1
      = .ok title body) :
    (provider = "gpt" ∧ title = "Update: " ++ model ++ " generated PR"
      ∧ gptExtract resp.json = .ok body)
    ∨ (provider = "gemini" ∧ title = "Automated PR by Gemini"
      ∧ geminiExtract resp.json = .ok body) := by
  by_cases hp : provider = "gpt"
  · left
    refine ⟨hp, ?_⟩
    subst hp
    by_cases hs : resp.status = 200
    · rcases hx : gptExtract resp.json with e | content
      · have hval : (generate_pr_content "gpt" api_key model template git_data resp).1
            = .crash e := by simp [generate_pr_content, hs, hx]
        rw [hval] at h
        exact GenOutcome.noConfusion h
      · have hval : (generate_pr_content "gpt" api_key model template git_data resp).1
            = .ok ("Update: " ++ model ++ " generated PR") content := by
          simp [generate_pr_content, hs, hx]
        rw [hval] at h
        injection h with h1 h2
        exact ⟨h1.symm, congrArg Except.ok h2⟩
    · have hval : (generate_pr_content "gpt" api_key model template git_data resp).1
          = .httpError resp.status ("LLM Error: " ++ resp.text) := by
        simp [generate_pr_content, hs]
      rw [hval] at h
      exact GenOutcome.noConfusion h
  · by_cases hg : provider = "gemini"
    · right
      refine ⟨hg, ?_⟩
      subst hg
      by_cases hs : resp.status = 200
      · rcases hx : geminiExtract resp.json with e | content
        · rcases e with _ | _ | _ | _
          · have hval : (generate_pr_content "gemini" api_key model template git_data resp).1
                = .httpError 500 ("Gemini response parsing failed: " ++ resp.text) := by
              simp [generate_pr_content, hs, hx]
            rw [hval] at h
            exact GenOutcome.noConfusion h
          · have hval : (generate_pr_content "gemini" api_key model template git_data resp).1
                = .crash .indexError := by simp [generate_pr_content, hs, hx]
            rw [hval] at h
            exact GenOutcome.noConfusion h
          · have hval : (generate_pr_content "gemini" api_key model template git_data resp).1
                = .crash .typeError := by simp [generate_pr_content, hs, hx]
            rw [hval] at h
            exact GenOutcome.noConfusion h
          · have hval : (generate_pr_content "gemini" api_key model template git_data resp).1
                = .crash .attributeError := by simp [generate_pr_content, hs, hx]
            rw [hval] at h
            exact GenOutcome.noConfusion h
        · have hval : (generate_pr_content "gemini" api_key model template git_data resp).1
              = .ok "Automated PR by Gemini" content := by
            simp [generate_pr_content, hs, hx]
          rw [hval] at h
          injection h with h1 h2
          exact ⟨h1.symm, congrArg Except.ok h2⟩
      · have hval : (generate_pr_content "gemini" api_key model template git_data resp).1
            = .httpError resp.status ("LLM Error: " ++ resp.text) := by
          simp [generate_pr_content, hs]
        rw [hval] at h
        exact GenOutcome.noConfusion h
    · have hval : (generate_pr_content provider api_key model template git_data resp).1
          = .httpError 400 "Unsupported LLM provider" := by
        simp [generate_pr_content, hp, hg]
      rw [hval] at h
      exact GenOutcome.noConfusion h

/-- C5 witness: applied at a concrete successful Gemini generation, the
amended statement yields the fixed title and the extracted body. -/
theorem C5_body_extracted_title_fixed_witness :
    ("gemini" = "gpt" ∧ "Automated PR by Gemini" = "Update: " ++ "gemini-2.0-flash-lite" ++ " generated PR"
      ∧ gptExtract (geminiRespBody "alpha") = .ok (.str "alpha"))
    ∨ ("gemini" = "gemini" ∧ "Automated PR by Gemini" = "Automated PR by Gemini"
      ∧ geminiExtract (geminiRespBody "alpha") = .ok (.str "alpha")) :=
  C5_body_extracted_title_fixed "gemini" "key" "gemini-2.0-flash-lite" "tpl" "ctx"
    "Automated PR by Gemini" (.str "alpha") ⟨200, geminiRespBody "alpha", "rawA"⟩ (by rfl)

/-- C2 amended: a request whose BODY explicitly supplies an unsupported
`llm_provider` is rejected by pydantic validation of the
`Literal["gemini", "gpt"]` field before the endpoint function runs — the
request terminates with the validation error and the outbound-call trace is
empty, so no git fetch, language-model call or hosting-service call is
made.  (An unsupported value arriving through the environment default is
NOT validated — see the counterexample — which is what the original claim
misses.) -/
theorem C2_explicit_provider_rejected (w : World) (b : RequestBody) (e : Env) (p : String)
    (hbody : b.llm_provider = some p) (h1 : p ≠ "gemini") (h2 : p ≠ "gpt") :
    handle_request w b e = (.validationError, []) := by
  have hprov : resolveProvider b.llm_provider (env_default e.LLM_PROVIDER none) = none := by
    rw [hbody]
    simp [resolveProvider, h1, h2]
  have hval : validateRequest b e = none := by
    unfold validateRequest
    rw [hprov]
    generalize resolveField b.owner (env_default e.GITHUB_OWNER none) = o1
    generalize resolveField b.repository (env_default e.GITHUB_REPOSITORY none) = o2
    generalize resolveField b.token (env_default e.GITHUB_TOKEN none) = o3
    generalize resolveField b.branch (env_default e.GITHUB_BRANCH none) = o4
    generalize resolveField b.base_branch (env_default e.GITHUB_BASE_BRANCH (some "dev")) = o5
    generalize resolveField b.pr_template (env_default e.PR_TEMPLATE (some defaultTemplate)) = o6
    generalize resolveField b.llm_api_key (env_default e.LLM_API_KEY none) = o8
    generalize resolveField b.llm_model (env_default e.LLM_MODEL (some "gemini-2.0-flash-lite")) = o9
    cases o1 <;> cases o2 <;> cases o3 <;> cases o4 <;> cases o5 <;>
      cases o6 <;> cases o8 <;> cases o9 <;> rfl
  simp [handle_request, hval]

/-- An arbitrary world for requests that never reach the pipeline. -/
def worldC2 : World := ⟨⟨fun _ => .ok ""⟩, ⟨200, .null, ""⟩, ⟨201, .obj [], ""⟩⟩

/-- A body that explicitly supplies the unsupported provider "claude". -/
def bodyC2 : RequestBody :=
  ⟨none, none, none, none, none, none, none, some "claude", none, none⟩

/-- An empty environment. -/
def envC2 : Env := ⟨none, none, none, none, none, none, none, none, none, none⟩

/-- C2 witness: an explicit unsupported provider is rejected with no
outbound call. -/
theorem C2_explicit_provider_rejected_witness :
    handle_request worldC2 bodyC2 envC2 = (.validationError, []) :=
  C2_explicit_provider_rejected worldC2 bodyC2 envC2 "claude" rfl
    (by decide) (by decide)

/-- A world whose git commands succeed, for the bypass scenario. -/
def worldC2env : World :=
  ⟨⟨fun cmd => if cmd = rev_list_cmd "dev" 14 then .ok "abc" else .ok ""⟩,
   ⟨200, .null, ""⟩, ⟨201, .obj [], ""⟩⟩

/-- A body that omits `llm_provider` (all other required fields given). -/
def bodyC2env : RequestBody :=
  ⟨some "own", some "repo", some "tok", some "feature/x", some "dev",
   some 14, some "tpl", none, some "key", some "gemini-2.0-flash-lite"⟩

/-- An environment that sets LLM_PROVIDER to the unsupported "claude". -/
def envC2env : Env :=
  ⟨none, none, none, none, none, none, none, some "claude", none, none⟩

/-- C2 counterexample: when the unsupported provider value "claude" comes
from the environment default, pydantic does not validate it; the request is
accepted with `llm_provider = "claude"`, the collector runs — making the
`git fetch origin` network call — and only then does the generator reject
the provider with HTTP 400.  So a request whose `llm_provider` field is
unsupported is NOT always rejected before an outbound network call,
refuting the claim at this input. -/
theorem C2_env_provider_bypass_counterexample :
    (validateRequest bodyC2env envC2env).map PRRequest.llm_provider = some "claude"
    ∧ (("claude" == "gemini") || ("claude" == "gpt")) = false
    ∧ handle_request worldC2env bodyC2env envC2env
        = (.failure .generate 400 "Unsupported LLM provider", [.gitFetch])
    ∧ NetCall.gitFetch ∈ (handle_request worldC2env bodyC2env envC2env).2 := by
  refine ⟨rfl, rfl, rfl, ?_⟩
  rw [show (handle_request worldC2env bodyC2env envC2env).2 = [NetCall.gitFetch] from rfl]
  exact List.mem_singleton_self _

/-- Auxiliary fact: the generator makes at most one language-model POST. -/
theorem generate_trace_cases (provider api_key model template git_data : String)
    (resp : HttpResp) :
    (generate_pr_content provider api_key model template git_data resp).2 = [NetCall.llmPost]
    ∨ (generate_pr_content provider api_key model template git_data resp).2 = [] := by
  unfold generate_pr_content
  split_ifs <;> simp

/-- Auxiliary fact: a successful generation made exactly one language-model
POST (the unsupported-provider branch, the only one that does not POST,
never returns a value). -/
theorem generate_ok_trace (provider api_key model template git_data : String)
    (resp : HttpResp) (title : String) (body : JsonVal)
    (h : (generate_pr_content provider api_key model template git_data resp).1
      = .ok title body) :
    (generate_pr_content provider api_key model template git_data resp).2
      = [NetCall.llmPost] := by
  unfold generate_pr_content at h ⊢
  split_ifs at h ⊢ <;> simp_all

/-- Observer: the collect stage succeeded. -/
def collectOk (w : World) (req : PRRequest) : Bool :=
  match run_git_commands w.git req.n_commits req.base_branch req.branch with
  | .ok _ => true
  | .error _ => false

/-- Observer: the collect stage succeeded and the generate stage returned a
title/body pair on its output. -/
def genStageOk (w : World) (req : PRRequest) : Bool :=
  match run_git_commands w.git req.n_commits req.base_branch req.branch with
  | .error _ => false
  | .ok g =>
    match (generate_pr_content req.llm_provider req.llm_api_key req.llm_model
        req.pr_template g w.llm).1 with
    | .ok _ _ => true
    | _ => false

/-- C6: the three stages run strictly in order.  If the collect stage fails
the trace is just the git fetch (no later stage ran); if the generate stage
fails or crashes, no hosting-service call was made; and a success result is
produced only when collect succeeded, generate returned a draft, and the
hosting service answered 201 — with the full ordered trace
fetch, language-model POST, hosting POST.  There is no partial-success
outcome. -/
theorem C6_pipeline_order (w : World) (req : PRRequest) :
    (∀ s d, (create_pr_endpoint w req).1 = .failure .collect s d →
        (create_pr_endpoint w req).2 = [NetCall.gitFetch])
    ∧ (∀ s d, (create_pr_endpoint w req).1 = .failure .generate s d →
        NetCall.ghPost ∉ (create_pr_endpoint w req).2)
    ∧ (∀ e, (create_pr_endpoint w req).1 = .crashed .generate e →
        NetCall.ghPost ∉ (create_pr_endpoint w req).2)
    ∧ (∀ u v, (create_pr_endpoint w req).1 = .success u v →
        (create_pr_endpoint w req).2 = [NetCall.gitFetch, NetCall.llmPost, NetCall.ghPost]
        ∧ collectOk w req = true ∧ genStageOk w req = true ∧ w.gh.status = 201) := by
  rcases hrun : run_git_commands w.git req.n_commits req.base_branch req.branch with ⟨s0, d0⟩ | g
  · have he : create_pr_endpoint w req = (.failure .collect s0 d0, [NetCall.gitFetch]) := by
      simp [create_pr_endpoint, hrun]
    rw [he]
    exact ⟨fun s d _ => rfl, fun s d h => absurd h (by simp),
           fun e h => absurd h (by simp), fun u v h => absurd h (by simp)⟩
  · rcases hgen : generate_pr_content req.llm_provider req.llm_api_key req.llm_model
        req.pr_template g w.llm with ⟨out, c⟩
    have hc2 : (generate_pr_content req.llm_provider req.llm_api_key req.llm_model
        req.pr_template g w.llm).2 = c := by rw [hgen]
    rcases out with ⟨t, bdy⟩ | ⟨s1, d1⟩ | e1
    · by_cases hst : w.gh.status = 201
      · have hctr : c = [NetCall.llmPost] := by
          have hok := generate_ok_trace req.llm_provider req.llm_api_key req.llm_model
            req.pr_template g w.llm t bdy (by rw [hgen])
          rwa [hc2] at hok
        subst hctr
        rcases hj : w.gh.json with _ | bb | ii | ss | xs | kvs
        · have he : create_pr_endpoint w req
              = (.crashed .publish .attributeError,
                 .gitFetch :: [NetCall.llmPost] ++ [.ghPost]) := by
            simp [create_pr_endpoint, hrun, hgen, create_github_pull_request, hst, hj]
          rw [he]
          exact ⟨fun s d h => absurd h (by simp), fun s d h => absurd h (by simp),
                 fun e h => absurd h (by simp), fun u v h => absurd h (by simp)⟩
        · have he : create_pr_endpoint w req
              = (.crashed .publish .attributeError,
                 .gitFetch :: [NetCall.llmPost] ++ [.ghPost]) := by
            simp [create_pr_endpoint, hrun, hgen, create_github_pull_request, hst, hj]
          rw [he]
          exact ⟨fun s d h => absurd h (by simp), fun s d h => absurd h (by simp),
                 fun e h => absurd h (by simp), fun u v h => absurd h (by simp)⟩
        · have he : create_pr_endpoint w req
              = (.crashed .publish .attributeError,
                 .gitFetch :: [NetCall.llmPost] ++ [.ghPost]) := by
            simp [create_pr_endpoint, hrun, hgen, create_github_pull_request, hst, hj]
          rw [he]
          exact ⟨fun s d h => absurd h (by simp), fun s d h => absurd h (by simp),
                 fun e h => absurd h (by simp), fun u v h => absurd h (by simp)⟩
        · have he : create_pr_endpoint w req
              = (.crashed .publish .attributeError,
                 .gitFetch :: [NetCall.llmPost] ++ [.ghPost]) := by
            simp [create_pr_endpoint, hrun, hgen, create_github_pull_request, hst, hj]
          rw [he]
          exact ⟨fun s d h => absurd h (by simp), fun s d h => absurd h (by simp),
                 fun e h => absurd h (by simp), fun u v h => absurd h (by simp)⟩
        · have he : create_pr_endpoint w req
              = (.crashed .publish .attributeError,
                 .gitFetch :: [NetCall.llmPost] ++ [.ghPost]) := by
            simp [create_pr_endpoint, hrun, hgen, create_github_pull_request, hst, hj]
          rw [he]
          exact ⟨fun s d h => absurd h (by simp), fun s d h => absurd h (by simp),
                 fun e h => absurd h (by simp), fun u v h => absurd h (by simp)⟩
        · have he : create_pr_endpoint w req
              = (.success (kvs.lookup "html_url") (kvs.lookup "number"),
                 .gitFetch :: [NetCall.llmPost] ++ [.ghPost]) := by
            simp [create_pr_endpoint, hrun, hgen, create_github_pull_request, hst, hj]
          rw [he]
          refine ⟨fun s d h => absurd h (by simp), fun s d h => absurd h (by simp),
                 fun e h => absurd h (by simp), fun u v h => ⟨rfl, ?_, ?_, hst⟩⟩
          · simp [collectOk, hrun]
          · simp [genStageOk, hrun, hgen]
      · have he : create_pr_endpoint w req
            = (.failure .publish w.gh.status ("GitHub Error: " ++ w.gh.text),
               .gitFetch :: c ++ [.ghPost]) := by
          simp [create_pr_endpoint, hrun, hgen, create_github_pull_request, hst]
        rw [he]
        exact ⟨fun s d h => absurd h (by simp), fun s d h => absurd h (by simp),
               fun e h => absurd h (by simp), fun u v h => absurd h (by simp)⟩
    · have he : create_pr_endpoint w req = (.failure .generate s1 d1, .gitFetch :: c) := by
        simp [create_pr_endpoint, hrun, hgen]
      have hcc : c = [NetCall.llmPost] ∨ c = [] := by
        have hcase := generate_trace_cases req.llm_provider req.llm_api_key req.llm_model
          req.pr_template g w.llm
        rwa [hc2] at hcase
      rw [he]
      refine ⟨fun s d h => absurd h (by simp), fun s d h => ?_,
              fun e h => absurd h (by simp), fun u v h => absurd h (by simp)⟩
      rcases hcc with rfl | rfl <;> simp
    · have he : create_pr_endpoint w req = (.crashed .generate e1, .gitFetch :: c) := by
        simp [create_pr_endpoint, hrun, hgen]
      have hcc : c = [NetCall.llmPost] ∨ c = [] := by
        have hcase := generate_trace_cases req.llm_provider req.llm_api_key req.llm_model
          req.pr_template g w.llm
        rwa [hc2] at hcase
      rw [he]
      refine ⟨fun s d h => absurd h (by simp), fun s d h => absurd h (by simp),
              fun e h => ?_, fun u v h => absurd h (by simp)⟩
      rcases hcc with rfl | rfl <;> simp

/-- A world in which all three stages succeed. -/
def worldC6 : World :=
  ⟨⟨fun cmd => if cmd = rev_list_cmd "dev" 3 then .ok "abc" else .ok ""⟩,
   ⟨200, geminiRespBody "generated body", "llm-raw"⟩,
   ⟨201, .obj [("html_url", .str "https://example.test/pr/1"), ("number", .num 1)], "gh-raw"⟩⟩

/-- The validated request driving `worldC6`. -/
def reqC6 : PRRequest :=
  ⟨"own", "repo", "tok", "feature/x", "dev", 3, "tpl", "gemini", "key", "gemini-2.0-flash-lite"⟩

/-- C6 witness: in the all-success world the success result entails the
full ordered trace and all three stage successes. -/
theorem C6_pipeline_order_witness :
    (create_pr_endpoint worldC6 reqC6).2
      = [NetCall.gitFetch, NetCall.llmPost, NetCall.ghPost]
    ∧ collectOk worldC6 reqC6 = true ∧ genStageOk worldC6 reqC6 = true
    ∧ worldC6.gh.status = 201 :=
  (C6_pipeline_order worldC6 reqC6).2.2.2
    (some (.str "https://example.test/pr/1")) (some (.num 1)) (by rfl)

/-- C10: whenever the first two stages succeed and the hosting service
answers 201 with a JSON-object body, the endpoint returns the success
response; `pr_url` and `pr_number` are read with the total dict lookup
(`.get`), which yields null for a missing key, so a 201 body lacking
`html_url` or `number` still produces a success, never an error. -/
theorem C10_publish_success_total_get (w : World) (req : PRRequest) (g t : String)
    (bdy : JsonVal) (kvs : List (String × JsonVal))
    (hcollect : run_git_commands w.git req.n_commits req.base_branch req.branch = .ok g)
    (hgen : (generate_pr_content req.llm_provider req.llm_api_key req.llm_model
        req.pr_template g w.llm).1 = .ok t bdy)
    (hst : w.gh.status = 201) (hjson : w.gh.json = .obj kvs) :
    (create_pr_endpoint w req).1
      = .success (kvs.lookup "html_url") (kvs.lookup "number") := by
  rcases hpair : generate_pr_content req.llm_provider req.llm_api_key req.llm_model
      req.pr_template g w.llm with ⟨out, c⟩
  have hout : out = .ok t bdy := by rw [hpair] at hgen; exact hgen
  subst hout
  simp [create_pr_endpoint, hcollect, hpair, create_github_pull_request, hst, hjson]

/-- A world whose 201 GitHub body is an empty JSON object — no `html_url`,
no `number`. -/
def worldC10 : World :=
  ⟨⟨fun cmd => if cmd = rev_list_cmd "main" 2 then .ok "abc" else .ok ""⟩,
   ⟨200, geminiRespBody "xyz", "llm"⟩, ⟨201, .obj [], "gh"⟩⟩

/-- The validated request driving `worldC10`. -/
def reqC10 : PRRequest :=
  ⟨"o", "r", "t", "feature/z", "main", 2, "tpl", "gemini", "k", "m"⟩

/-- C10 witness: with an empty 201 body the endpoint still returns a
success whose url and number are null. -/
theorem C10_publish_success_total_get_witness :
    (create_pr_endpoint worldC10 reqC10).1 = .success none none :=
  C10_publish_success_total_get worldC10 reqC10 (full_context "" "" "")
    "Automated PR by Gemini" (.str "xyz") [] (by rfl) (by rfl) rfl rfl
